import Mathlib

/-!
Verification of the sales / inventory / warranty backend
(Proyecto-Pagina-Control-Ventas).

The development shallowly embeds the data model and the operations of the
backend: the warranty date calculator (src/services/warrantyService.ts and
src/utils/date.ts), the sale transaction (createSale in
src/controllers/saleController.ts), the image attachment and serial
extraction endpoints, the customer deletion guard
(src/controllers/customerController.ts), and the expiring-warranty queries.

Conventions of the embedding:
  - calendar dates are structures of year / month / day; the JavaScript
    Date.prototype.setMonth rollover is modelled exactly (day overflow
    rolls into the following month, it is not clamped);
  - timestamps in milliseconds are Int values where the source works with
    Date.getTime differences;
  - DATE columns compared by SQL are modelled as Int day ordinals;
  - money (DECIMAL columns, JavaScript number arithmetic on prices) is
    modelled as Rat;
  - the database is an explicit record of lists of rows; a controller is a
    function from the database and the request data to a result paired
    with the successor database; an error result returns the original
    database, which models the transaction ROLLBACK of the source;
  - collaborator services that depend on the clock or on randomness
    (uploadImage of imageService.ts, extractSerialFromImage of
    ocrService.ts, generateUUID) are passed as explicit parameters.
-/

/-! ## Calendar dates and the warranty calculator -/

/-- A calendar date: year, month (1 to 12) and day (1 to 31). -/
structure Date where
  year : Int
  month : Nat
  day : Nat
deriving DecidableEq

/-- Proleptic Gregorian leap year test, as used by the JavaScript Date
object that the source manipulates. -/
def isLeap (y : Int) : Bool :=
  (y % 4 == 0 && y % 100 != 0) || (y % 400 == 0)

/-- Number of days of a month (month given 1 to 12). -/
def daysInMonth (y : Int) (m : Nat) : Nat :=
  if m = 2 then (if isLeap y then 29 else 28)
  else if m = 4 ∨ m = 6 ∨ m = 9 ∨ m = 11 then 30
  else 31

/-- A date is valid when the month is 1 to 12 and the day exists in that
month. -/
def Date.Valid (d : Date) : Prop :=
  1 ≤ d.month ∧ d.month ≤ 12 ∧ 1 ≤ d.day ∧ d.day ≤ daysInMonth d.year d.month

/-- Zero based month, as returned by Date.prototype.getMonth. -/
def Date.getMonth0 (d : Date) : Nat := d.month - 1

/-- Model of Date.prototype.setMonth on date-only values, for a month
argument that may exceed 11: ECMAScript MakeDay normalizes the month into
the year, keeps the day number, and day overflow rolls over into the
following month (it is never clamped to the last day of the target month).
Because a source day is at most 31 and every month has at least 28 days,
at most one rollover step happens. -/
def jsSetMonth (d : Date) (m : Nat) : Date :=
  let y1 : Int := d.year + (m / 12 : Nat)
  let m1 : Nat := m % 12 + 1
  let dim := daysInMonth y1 m1
  if d.day ≤ dim then ⟨y1, m1, d.day⟩
  else if m1 = 12 then ⟨y1 + 1, 1, d.day - dim⟩
  else ⟨y1, m1 + 1, d.day - dim⟩

/-- Embedding of calculateWarrantyEnd (src/utils/date.ts): copy the start
date and call endDate.setMonth(endDate.getMonth() + months). -/
def calculateWarrantyEnd (startDate : Date) (months : Nat) : Date :=
  jsSetMonth startDate (startDate.getMonth0 + months)

/-- Result record of calculateWarrantyDates. -/
structure WarrantyDates where
  warrantyStart : Date
  warrantyEnd : Date
deriving DecidableEq

/-- Embedding of calculateWarrantyDates (src/services/warrantyService.ts):
warrantyStart is the sale date and warrantyEnd is calculateWarrantyEnd of
it. -/
def calculateWarrantyDates (saleDate : Date) (warrantyPeriodMonths : Nat) :
    WarrantyDates :=
  { warrantyStart := saleDate
  , warrantyEnd := calculateWarrantyEnd saleDate warrantyPeriodMonths }

/-- Injective timeline ordinal of a date (months have at most 31 < 32
days, years have 12 months); key order is chronological order for valid
dates. -/
def Date.key (d : Date) : Int :=
  d.year * 384 + d.month * 32 + d.day

/-- Absolute month counter of a date. -/
def Date.monthIdx (d : Date) : Int :=
  d.year * 12 + d.month - 1

/-- Year of the month targeted by advancing M calendar months. -/
def targetYear (d : Date) (M : Nat) : Int :=
  d.year + ((d.getMonth0 + M) / 12 : Nat)

/-- Month (1 to 12) targeted by advancing M calendar months. -/
def targetMonth (d : Date) (M : Nat) : Nat :=
  (d.getMonth0 + M) % 12 + 1

lemma daysInMonth_bounds (y : Int) (m : Nat) :
    28 ≤ daysInMonth y m ∧ daysInMonth y m ≤ 31 := by
  unfold daysInMonth
  split_ifs <;> omega

example : calculateWarrantyEnd ⟨2024, 1, 31⟩ 1 = ⟨2024, 3, 2⟩ := by decide
example : calculateWarrantyEnd ⟨2023, 1, 31⟩ 1 = ⟨2023, 3, 3⟩ := by decide
example : calculateWarrantyEnd ⟨2024, 1, 15⟩ 12 = ⟨2025, 1, 15⟩ := by decide
example : calculateWarrantyEnd ⟨2024, 12, 31⟩ 2 = ⟨2025, 3, 3⟩ := by decide

/-- C3 (amended). For every valid sale date D and month count M with
1 <= M <= 120, calculateWarrantyDates(D, M) returns warrantyStart = D, and
warrantyEnd is D advanced by M calendar months under the JavaScript
setMonth rollover rule: the day of month is preserved whenever the target
month is long enough, and otherwise the date rolls over into the month
FOLLOWING the target month by the excess days (it does NOT land on the
last valid day of the target month); warrantyEnd is strictly after
warrantyStart in every case. -/
theorem calculateWarrantyDates_spec (d : Date) (M : Nat)
    (hv : d.Valid) (h1 : 1 ≤ M) (h2 : M ≤ 120) :
    (calculateWarrantyDates d M).warrantyStart = d ∧
    (d.day ≤ daysInMonth (targetYear d M) (targetMonth d M) →
      ((calculateWarrantyDates d M).warrantyEnd).monthIdx = d.monthIdx + M ∧
      ((calculateWarrantyDates d M).warrantyEnd).day = d.day) ∧
    (daysInMonth (targetYear d M) (targetMonth d M) < d.day →
      ((calculateWarrantyDates d M).warrantyEnd).monthIdx = d.monthIdx + M + 1 ∧
      ((calculateWarrantyDates d M).warrantyEnd).day
        + daysInMonth (targetYear d M) (targetMonth d M) = d.day) ∧
    d.key < ((calculateWarrantyDates d M).warrantyEnd).key := by
  obtain ⟨hm1, hm2, hd1, hd2⟩ := hv
  have hdm2 := (daysInMonth_bounds d.year d.month).2
  refine ⟨rfl, ?_⟩
  simp only [calculateWarrantyDates, calculateWarrantyEnd, jsSetMonth,
    targetYear, targetMonth, Date.getMonth0, Date.monthIdx, Date.key]
  set m0 : Nat := d.month - 1 + M with hm0
  have hqr : 12 * (m0 / 12) + m0 % 12 = m0 := Nat.div_add_mod m0 12
  have hrlt : m0 % 12 < 12 := Nat.mod_lt _ (by omega)
  have hdimt := daysInMonth_bounds (d.year + (m0 / 12 : Nat)) (m0 % 12 + 1)
  generalize hq : m0 / 12 = q at *
  generalize hr : m0 % 12 = r at *
  generalize hdim : daysInMonth (d.year + (q : Nat)) (r + 1) = dim at *
  split_ifs with hc1 hc2
  · refine ⟨fun _ => ⟨?_, ?_⟩, fun hlt => absurd hc1 (by omega), ?_⟩ <;>
      (dsimp only; all_goals (push_cast; omega))
  · refine ⟨fun hle => absurd hc1 (by omega), fun _ => ⟨?_, ?_⟩, ?_⟩ <;>
      (dsimp only; all_goals (push_cast; omega))
  · refine ⟨fun hle => absurd hc1 (by omega), fun _ => ⟨?_, ?_⟩, ?_⟩ <;>
      (dsimp only; all_goals (push_cast; omega))

/-- Witness for C3 at D = 2024-01-15 and M = 12: the warranty runs from
2024-01-15 and ends 2025-01-15, strictly later. -/
theorem calculateWarrantyDates_spec_witness :
    ((Date.mk 2024 1 15).Valid ∧ 1 ≤ 12 ∧ 12 ≤ 120) ∧
    ((calculateWarrantyDates ⟨2024, 1, 15⟩ 12).warrantyStart = ⟨2024, 1, 15⟩ ∧
     ((15 : Nat) ≤ daysInMonth (targetYear ⟨2024, 1, 15⟩ 12) (targetMonth ⟨2024, 1, 15⟩ 12) →
       ((calculateWarrantyDates ⟨2024, 1, 15⟩ 12).warrantyEnd).monthIdx
          = (Date.mk 2024 1 15).monthIdx + 12 ∧
       ((calculateWarrantyDates ⟨2024, 1, 15⟩ 12).warrantyEnd).day = 15) ∧
     (daysInMonth (targetYear ⟨2024, 1, 15⟩ 12) (targetMonth ⟨2024, 1, 15⟩ 12) < 15 →
       ((calculateWarrantyDates ⟨2024, 1, 15⟩ 12).warrantyEnd).monthIdx
          = (Date.mk 2024 1 15).monthIdx + 12 + 1 ∧
       ((calculateWarrantyDates ⟨2024, 1, 15⟩ 12).warrantyEnd).day
          + daysInMonth (targetYear ⟨2024, 1, 15⟩ 12) (targetMonth ⟨2024, 1, 15⟩ 12) = 15) ∧
     (Date.mk 2024 1 15).key < ((calculateWarrantyDates ⟨2024, 1, 15⟩ 12).warrantyEnd).key) :=
  ⟨by refine ⟨?_, by decide, by decide⟩; unfold Date.Valid; decide,
   calculateWarrantyDates_spec ⟨2024, 1, 15⟩ 12 (by unfold Date.Valid; decide)
     (by decide) (by decide)⟩

/-- Counterexample for C3 as stated: January 31 2024 advanced by one
month yields March 2 2024 under the setMonth rollover of the source, not
the last valid day of February (February 29 2024). -/
theorem calculateWarrantyDates_jan31_counterexample :
    (calculateWarrantyDates ⟨2024, 1, 31⟩ 1).warrantyEnd = ⟨2024, 3, 2⟩ ∧
    daysInMonth 2024 2 = 29 ∧
    (calculateWarrantyDates ⟨2024, 1, 31⟩ 1).warrantyEnd ≠ ⟨2024, 2, 29⟩ ∧
    ((calculateWarrantyDates ⟨2024, 1, 31⟩ 1).warrantyEnd).month ≠ 2 := by
  decide

/-! ## Warranty status utilities (millisecond timestamps)

The functions getDaysUntilWarrantyExpiry and isWarrantyExpiringSoon of
src/utils/date.ts work on Date.getTime differences in milliseconds; the
current time is an explicit parameter of the embedding. -/

/-- Milliseconds per day, the constant 1000 * 60 * 60 * 24 of the source. -/
def msPerDay : Int := 86400000

/-- Embedding of getDaysUntilWarrantyExpiry (src/utils/date.ts):
Math.ceil of the millisecond difference divided by one day; for a
positive divisor the ceiling of a over b is (a + b - 1) divided by b with
floor division. -/
def getDaysUntilWarrantyExpiry (warrantyEndMs nowMs : Int) : Int :=
  (warrantyEndMs - nowMs + (msPerDay - 1)) / msPerDay

/-- Embedding of isWarrantyExpiringSoon (src/utils/date.ts): the day
difference is at most the threshold and strictly positive. The source
declares the threshold with default value 30. -/
def isWarrantyExpiringSoon (warrantyEndMs nowMs daysThreshold : Int) : Bool :=
  let diffDays := getDaysUntilWarrantyExpiry warrantyEndMs nowMs
  decide (diffDays ≤ daysThreshold) && decide (0 < diffDays)

/-- Result record of checkWarrantyStatus. -/
structure WarrantyStatus where
  isActive : Bool
  isExpiringSoon : Bool
  daysUntilExpiry : Int
  warrantyEndMs : Int
deriving DecidableEq

/-- Embedding of checkWarrantyStatus (src/services/warrantyService.ts)
after the sale row has been fetched: isActive is daysUntilExpiry > 0 and
isExpiringSoon is isWarrantyExpiringSoon with its default threshold 30. -/
def checkWarrantyStatus (warrantyEndMs nowMs : Int) : WarrantyStatus :=
  let daysUntilExpiry := getDaysUntilWarrantyExpiry warrantyEndMs nowMs
  { isActive := decide (0 < daysUntilExpiry)
  , isExpiringSoon := isWarrantyExpiringSoon warrantyEndMs nowMs 30
  , daysUntilExpiry := daysUntilExpiry
  , warrantyEndMs := warrantyEndMs }

/-! ## Warranty statistics and expiring warranties (DATE granularity)

getWarrantyStatistics and getExpiringWarranties issue SQL over the DATE
column warranty_end and CURRENT_DATE; DATE values are embedded as Int day
ordinals. -/

/-- Row of the sales table as seen by the warranty statistics query. -/
structure WSaleRow where
  warrantyEndDay : Int
  warrantyPeriodMonths : Nat
deriving DecidableEq

/-- SQL predicate warranty_end > CURRENT_DATE of the statistics query. -/
def isActiveRow (today : Int) (s : WSaleRow) : Bool :=
  decide (today < s.warrantyEndDay)

/-- SQL predicate warranty_end BETWEEN CURRENT_DATE AND CURRENT_DATE +
INTERVAL 30 days of the statistics query; BETWEEN is inclusive at both
bounds. -/
def isExpiringSoonRow (today : Int) (s : WSaleRow) : Bool :=
  decide (today ≤ s.warrantyEndDay) && decide (s.warrantyEndDay ≤ today + 30)

/-- SQL predicate warranty_end < CURRENT_DATE of the statistics query. -/
def isExpiredRow (today : Int) (s : WSaleRow) : Bool :=
  decide (s.warrantyEndDay < today)

/-- Result record of getWarrantyStatistics. -/
structure WarrantyStats where
  totalActiveWarranties : Nat
  expiringSoonCount : Nat
  expiredCount : Nat
  averageWarrantyPeriod : Rat
deriving DecidableEq

/-- Embedding of getWarrantyStatistics (src/services/warrantyService.ts):
conditional COUNT aggregates over the sales table plus the average
warranty period (0 for an empty table, matching the parseFloat fallback
on a NULL AVG). -/
def getWarrantyStatistics (sales : List WSaleRow) (today : Int) : WarrantyStats :=
  { totalActiveWarranties := (sales.filter (isActiveRow today)).length
  , expiringSoonCount := (sales.filter (isExpiringSoonRow today)).length
  , expiredCount := (sales.filter (isExpiredRow today)).length
  , averageWarrantyPeriod :=
      if sales.length = 0 then 0
      else ((sales.map (fun s => (s.warrantyPeriodMonths : Rat))).sum) / sales.length }

/-- Row of the sales join as read by the expiring-warranties query; only
the fields the claims mention are carried. -/
structure ExpRow where
  saleId : Nat
  warrantyEndDay : Int
deriving DecidableEq

/-- Output row of getExpiringWarranties. -/
structure ExpiringWarranty where
  sale_id : Nat
  warranty_end : Int
  days_until_expiry : Int
deriving DecidableEq

/-- Mapping of a selected sales row to an output row; days_until_expiry
is the SQL difference warranty_end - CURRENT_DATE. -/
def mkExpiring (today : Int) (r : ExpRow) : ExpiringWarranty :=
  { sale_id := r.saleId
  , warranty_end := r.warrantyEndDay
  , days_until_expiry := r.warrantyEndDay - today }

/-- Embedding of getExpiringWarranties (src/services/warrantyService.ts):
the threshold date is today plus daysThreshold days; rows whose
warranty_end lies BETWEEN CURRENT_DATE AND the threshold date (both
bounds inclusive) are selected, ordered by warranty_end ascending. -/
def getExpiringWarranties (rows : List ExpRow) (today daysThreshold : Int) :
    List ExpiringWarranty :=
  let thresholdDay := today + daysThreshold
  let picked := rows.filter
    (fun r => decide (today ≤ r.warrantyEndDay) && decide (r.warrantyEndDay ≤ thresholdDay))
  let sorted := picked.mergeSort (fun a b => decide (a.warrantyEndDay ≤ b.warrantyEndDay))
  sorted.map (mkExpiring today)

/-- The source declares getExpiringWarranties with the optional parameter
daysThreshold = 30; this is the call without an argument. -/
def getExpiringWarrantiesDefault (rows : List ExpRow) (today : Int) :
    List ExpiringWarranty :=
  getExpiringWarranties rows today 30

/-- C4 (amended). A warranty with daysUntilExpiry = 0 is classified by
checkWarrantyStatus as neither active nor expiring soon (strict
comparisons on the day difference), and a sale whose warranty_end equals
the current date is excluded from the active-warranties count of
getWarrantyStatistics; however, contrary to the claim as stated, that
sale IS counted by the expiring-soon aggregate, because the SQL BETWEEN
of the statistics query includes its lower bound CURRENT_DATE. -/
theorem warranty_today_boundary (endMs nowMs today : Int)
    (s : WSaleRow) (rest : List WSaleRow)
    (hms : getDaysUntilWarrantyExpiry endMs nowMs = 0)
    (hday : s.warrantyEndDay = today) :
    (checkWarrantyStatus endMs nowMs).isActive = false ∧
    (checkWarrantyStatus endMs nowMs).isExpiringSoon = false ∧
    (getWarrantyStatistics (s :: rest) today).totalActiveWarranties
      = (getWarrantyStatistics rest today).totalActiveWarranties ∧
    (getWarrantyStatistics (s :: rest) today).expiringSoonCount
      = (getWarrantyStatistics rest today).expiringSoonCount + 1 := by
  refine ⟨?_, ?_, ?_, ?_⟩
  · simp [checkWarrantyStatus, hms]
  · simp [checkWarrantyStatus, isWarrantyExpiringSoon, hms]
  · simp [getWarrantyStatistics, List.filter_cons, isActiveRow, hday]
  · simp [getWarrantyStatistics, List.filter_cons, isExpiringSoonRow, hday]

/-- Witness for C4: warranty end one millisecond before now (day
difference ceiling 0) and a single sale ending exactly today. -/
theorem warranty_today_boundary_witness :
    (getDaysUntilWarrantyExpiry 999 1000 = 0 ∧
     (WSaleRow.mk 5 12).warrantyEndDay = 5) ∧
    ((checkWarrantyStatus 999 1000).isActive = false ∧
     (checkWarrantyStatus 999 1000).isExpiringSoon = false ∧
     (getWarrantyStatistics [WSaleRow.mk 5 12] 5).totalActiveWarranties
       = (getWarrantyStatistics [] 5).totalActiveWarranties ∧
     (getWarrantyStatistics [WSaleRow.mk 5 12] 5).expiringSoonCount
       = (getWarrantyStatistics [] 5).expiringSoonCount + 1) :=
  ⟨⟨by decide, by decide⟩,
   warranty_today_boundary 999 1000 5 (WSaleRow.mk 5 12) [] (by decide) (by decide)⟩

/-- Counterexample for C4 as stated: a sale whose warranty_end equals the
current date is NOT excluded from the expiring-soon count of
getWarrantyStatistics; the BETWEEN bound of the SQL includes it, so the
count is 1, while the active count is indeed 0. -/
theorem warranty_today_statistics_counterexample :
    (WSaleRow.mk 0 12).warrantyEndDay = 0 ∧
    (getWarrantyStatistics [WSaleRow.mk 0 12] 0).totalActiveWarranties = 0 ∧
    (getWarrantyStatistics [WSaleRow.mk 0 12] 0).expiringSoonCount = 1 := by
  refine ⟨rfl, rfl, rfl⟩

/-- C8. getExpiringWarranties returns exactly the sales whose
warranty_end falls in the closed interval from today to today plus the
threshold (the lower bound today is included), each carried with its day
difference, and the output is ordered by warranty_end ascending, soonest
expiry first. -/
theorem getExpiringWarranties_spec (rows : List ExpRow) (today d : Int) :
    List.Perm (getExpiringWarranties rows today d)
      ((rows.filter (fun r =>
          decide (today ≤ r.warrantyEndDay) && decide (r.warrantyEndDay ≤ today + d))).map
        (mkExpiring today)) ∧
    (∀ w, w ∈ getExpiringWarranties rows today d ↔
      ∃ r, r ∈ rows ∧ today ≤ r.warrantyEndDay ∧ r.warrantyEndDay ≤ today + d ∧
        w = mkExpiring today r) ∧
    List.Sorted (fun a b => a.warranty_end ≤ b.warranty_end)
      (getExpiringWarranties rows today d) := by
  unfold getExpiringWarranties
  dsimp only
  refine ⟨List.Perm.map _ (List.mergeSort_perm _ _), ?_, ?_⟩
  · intro w
    constructor
    · intro hw
      simp only [List.mem_map, List.mem_mergeSort, List.mem_filter,
        Bool.and_eq_true, decide_eq_true_eq] at hw
      obtain ⟨r, ⟨hr, h1, h2⟩, hwe⟩ := hw
      exact ⟨r, hr, h1, h2, hwe.symm⟩
    · rintro ⟨r, hr, h1, h2, rfl⟩
      simp only [List.mem_map, List.mem_mergeSort, List.mem_filter,
        Bool.and_eq_true, decide_eq_true_eq]
      exact ⟨r, ⟨hr, h1, h2⟩, rfl⟩
  · have hp := @List.sorted_mergeSort ExpRow
      (fun a b : ExpRow => decide (a.warrantyEndDay ≤ b.warrantyEndDay))
      (fun a b c hab hbc => by
        simp only [decide_eq_true_eq] at *
        omega)
      (fun a b => by
        simp only [Bool.or_eq_true, decide_eq_true_eq]
        omega)
      (rows.filter (fun r =>
        decide (today ≤ r.warrantyEndDay) && decide (r.warrantyEndDay ≤ today + d)))
    exact List.Pairwise.map _
      (fun a b hab => by
        simp only [decide_eq_true_eq] at hab
        simpa [mkExpiring] using hab) hp

/-! ## The expiring-warranties controller and its days parameter -/

/-- Code points the ECMAScript parseInt trims before reading the number:
the WhiteSpace set (TAB, VT, FF, SP, NBSP, ZWNBSP and the Unicode
space-separator category) together with the LineTerminator set (LF, CR,
LS, PS). -/
def jsWhitespace (c : Char) : Bool :=
  ([9, 10, 11, 12, 13, 32, 160, 0x1680,
    0x2000, 0x2001, 0x2002, 0x2003, 0x2004, 0x2005, 0x2006, 0x2007,
    0x2008, 0x2009, 0x200A, 0x2028, 0x2029, 0x202F, 0x205F, 0x3000,
    0xFEFF] : List Nat).contains c.toNat

/-- Value of a character as a decimal digit, when it is one. -/
def decDigitVal (c : Char) : Option Nat :=
  if c.isDigit then some (c.toNat - 48) else none

/-- Value of a character as a hexadecimal digit, when it is one. -/
def hexDigitVal (c : Char) : Option Nat :=
  if c.isDigit then some (c.toNat - 48)
  else if 'a' ≤ c ∧ c ≤ 'f' then some (c.toNat - 87)
  else if 'A' ≤ c ∧ c ≤ 'F' then some (c.toNat - 55)
  else none

/-- Longest leading run of digits of the given radix, folded into a
number; an empty run means NaN. Trailing garbage after the run is
ignored, as parseInt does. -/
def parseDigits (radix : Nat) (digitVal : Char → Option Nat) (cs : List Char) :
    Option Nat :=
  let ds := cs.takeWhile (fun c => (digitVal c).isSome)
  if ds = [] then none
  else some (ds.foldl (fun a c => a * radix + ((digitVal c).getD 0)) 0)

/-- Magnitude part of parseInt after sign removal: a leading 0x or 0X
selects radix 16 and is stripped (with no valid hex digit after it the
result is NaN); otherwise the number is read in radix 10. -/
def parseIntNoSign (cs : List Char) : Option Nat :=
  match cs with
  | '0' :: x :: rest =>
    if x == 'x' || x == 'X' then parseDigits 16 hexDigitVal rest
    else parseDigits 10 decDigitVal cs
  | _ => parseDigits 10 decDigitVal cs

/-- Model of the ECMAScript parseInt(s) with no radix argument, as called
by the controller: trim leading whitespace, read an optional sign, apply
the 0x/0X radix-16 prefix rule, and read the longest digit run of the
selected radix; no digits means NaN, embedded as none. -/
def parseIntJS (s : String) : Option Int :=
  match s.toList.dropWhile jsWhitespace with
  | '-' :: r => (parseIntNoSign r).map (fun n => -(n : Int))
  | '+' :: r => (parseIntNoSign r).map (fun n => ((n : Nat) : Int))
  | r => (parseIntNoSign r).map (fun n => ((n : Nat) : Int))

example : parseIntJS "0x10" = some 16 := by decide
example : parseIntJS "-0X1f" = some (-31) := by decide
example : parseIntJS "\t5" = some 5 := by decide
example : parseIntJS "  12.7" = some 12 := by decide
example : parseIntJS "-5" = some (-5) := by decide
example : parseIntJS "09" = some 9 := by decide
example : parseIntJS "0x" = none := by decide
example : parseIntJS "abc" = none := by decide
example : parseIntJS "- 5" = none := by decide
example : parseIntJS "0" = some 0 := by decide

/-- JavaScript falsy fallback x || d for a number that may be NaN: NaN
and 0 both pick the fallback. -/
def jsNumOr (v : Option Int) (dflt : Int) : Int :=
  match v with
  | some n => if n = 0 then dflt else n
  | none => dflt

/-- Response record of the expiring-warranties endpoint. -/
structure ExpiringWarrantiesResponse where
  warranties : List ExpiringWarranty
  count : Nat
  days_threshold : Int
deriving DecidableEq

/-- Embedding of getExpiringWarrantiesController
(src/controllers/statsController.ts): days is parseInt(req.query.days)
with fallback 30, the service is invoked with it, and the response echoes
the warranties, their count and the threshold. -/
def getExpiringWarrantiesController (daysParam : Option String)
    (rows : List ExpRow) (today : Int) : ExpiringWarrantiesResponse :=
  let days := jsNumOr (daysParam.bind parseIntJS) 30
  let expiringWarranties := getExpiringWarranties rows today days
  { warranties := expiringWarranties
  , count := expiringWarranties.length
  , days_threshold := days }

/-- C10. When the days query parameter is absent or does not parse to a
nonzero integer, the controller calls getExpiringWarranties with
threshold 30 and echoes days_threshold = 30; and calling
getExpiringWarranties without the optional argument uses the declared
default 30. -/
theorem expiring_days_default (qp : Option String) (rows : List ExpRow) (today : Int)
    (h : qp.bind parseIntJS = none ∨ qp.bind parseIntJS = some 0) :
    (getExpiringWarrantiesController qp rows today).days_threshold = 30 ∧
    (getExpiringWarrantiesController qp rows today).warranties
      = getExpiringWarranties rows today 30 ∧
    getExpiringWarrantiesDefault rows today = getExpiringWarranties rows today 30 := by
  have hdays : jsNumOr (qp.bind parseIntJS) 30 = 30 := by
    rcases h with h | h <;> simp [h, jsNumOr]
  refine ⟨?_, ?_, rfl⟩ <;>
    simp [getExpiringWarrantiesController, hdays]

/-- Witness for C10 with a non-numeric days parameter and an empty sales
table. -/
theorem expiring_days_default_witness :
    ((some "abc").bind parseIntJS = none ∨ (some "abc").bind parseIntJS = some 0) ∧
    ((getExpiringWarrantiesController (some "abc") [] 0).days_threshold = 30 ∧
     (getExpiringWarrantiesController (some "abc") [] 0).warranties
       = getExpiringWarranties [] 0 30 ∧
     getExpiringWarrantiesDefault [] 0 = getExpiringWarranties [] 0 30) :=
  ⟨Or.inl (by decide),
   expiring_days_default (some "abc") [] 0 (Or.inl (by decide))⟩

/-! ## Relational state and the sale transaction -/

/-- Row of the products table (the columns createSale touches). -/
structure Product where
  id : Nat
  name : String
  stock : Int
  price : Rat
  is_active : Bool
deriving DecidableEq

/-- Row of the customers table. -/
structure Customer where
  id : Nat
  first_name : String
  last_name : String
deriving DecidableEq

/-- Row of the sales table. -/
structure SaleRow where
  id : Nat
  product_id : Nat
  customer_id : Nat
  seller_id : Nat
  quantity : Int
  unit_price : Rat
  total_price : Rat
  sale_date : Date
  warranty_period_months : Nat
  warranty_start : Date
  warranty_end : Date
  serial_number : Option String
deriving DecidableEq

/-- Row of the sale_images table. -/
structure SaleImage where
  id : Nat
  sale_id : Nat
  image_type : String
  image_url : String
deriving DecidableEq

/-- The relational store. -/
structure DB where
  products : List Product
  customers : List Customer
  sales : List SaleRow
  images : List SaleImage
deriving DecidableEq

/-- Error taxonomy of src/middleware/errorHandler.ts restricted to the
kinds these controllers raise. -/
inductive AppError where
  | notFound (msg : String)
  | validation (msg : String)
  | conflict (msg : String)
deriving DecidableEq

/-- Lookup of the createSale product query: SELECT ... FROM products
WHERE id = $1 AND is_active = true. -/
def findActiveProduct (db : DB) (pid : Nat) : Option Product :=
  db.products.find? (fun p => p.id == pid && p.is_active)

/-- Lookup of a customer by id. -/
def findCustomer (db : DB) (cid : Nat) : Option Customer :=
  db.customers.find? (fun c => c.id == cid)

/-- Lookup of a sale by id. -/
def findSale (db : DB) (sid : Nat) : Option SaleRow :=
  db.sales.find? (fun s => s.id == sid)

/-- Body of a sale creation request. -/
structure CreateSaleData where
  product_id : Nat
  customer_id : Nat
  quantity : Int
  unit_price : Rat
  warranty_period_months : Nat
  serial_number : Option String
deriving DecidableEq

/-- JavaScript falsy fallback s || null on an optional string: the empty
string is falsy and becomes null. -/
def jsOrNull (s : Option String) : Option String :=
  match s with
  | some v => if v == "" then none else some v
  | none => none

/-- Embedding of createSale (src/controllers/saleController.ts). The
whole body runs inside one transaction: every error path returns the
database unchanged, which models the ROLLBACK of the catch block; the
success path commits the inserted sale row together with the stock
decrement. The ambient sale date (new Date()) and the generated sale id
(generateUUID) are parameters. -/
def createSale (db : DB) (d : CreateSaleData) (seller_id : Option Nat)
    (sale_date : Date) (saleId : Nat) : Except AppError SaleRow × DB :=
  match seller_id with
  | none => (.error (.validation "Vendedor no identificado"), db)
  | some sid =>
    match findActiveProduct db d.product_id with
    | none => (.error (.notFound "Producto no encontrado o inactivo"), db)
    | some product =>
      if product.stock < d.quantity then
        (.error (.validation ("Stock insuficiente. Disponible: " ++ toString product.stock
          ++ ", Solicitado: " ++ toString d.quantity)), db)
      else
        match findCustomer db d.customer_id with
        | none => (.error (.notFound "Cliente no encontrado"), db)
        | some _ =>
          let total_price := (d.quantity : Rat) * d.unit_price
          let w := calculateWarrantyDates sale_date d.warranty_period_months
          let sale : SaleRow :=
            { id := saleId
            , product_id := d.product_id
            , customer_id := d.customer_id
            , seller_id := sid
            , quantity := d.quantity
            , unit_price := d.unit_price
            , total_price := total_price
            , sale_date := sale_date
            , warranty_period_months := d.warranty_period_months
            , warranty_start := w.warrantyStart
            , warranty_end := w.warrantyEnd
            , serial_number := jsOrNull d.serial_number }
          let products := db.products.map (fun p =>
            if p.id == d.product_id then { p with stock := p.stock - d.quantity } else p)
          (.ok sale, { db with sales := db.sales ++ [sale], products := products })

lemma find?_map_of_pred_inv {α : Type} (l : List α) (f : α → α) (p : α → Bool)
    (hf : ∀ x, p (f x) = p x) :
    ∀ {a : α}, l.find? p = some a → (l.map f).find? p = some (f a) := by
  induction l with
  | nil => intro a h; simp at h
  | cons x xs ih =>
    intro a h
    by_cases hx : p x = true
    · rw [List.find?_cons_of_pos _ hx] at h
      cases h
      rw [List.map_cons, List.find?_cons_of_pos _ (by rw [hf]; exact hx)]
    · rw [List.find?_cons_of_neg _ hx] at h
      rw [List.map_cons,
        List.find?_cons_of_neg _ (by rw [hf]; exact hx)]
      exact ih h

/-- C1. When the product exists, is active and has stock at least the
requested quantity, the customer exists, and the request is in range,
createSale succeeds and commits, in one transaction, exactly one new sale
row whose total_price is quantity times unit_price and whose warranty
window is the one computed by calculateWarrantyDates, together with a
stock decrement of exactly the quantity on that product; customers and
images are untouched. -/
theorem createSale_success (db : DB) (d : CreateSaleData) (sid : Nat)
    (sale_date : Date) (saleId : Nat) (prod : Product)
    (hprod : findActiveProduct db d.product_id = some prod)
    (hstock : d.quantity ≤ prod.stock)
    (hcust : (findCustomer db d.customer_id).isSome = true)
    (hq : 0 < d.quantity) (hu : 0 < d.unit_price)
    (hm1 : 1 ≤ d.warranty_period_months) (hm2 : d.warranty_period_months ≤ 120) :
    ∃ sale db2,
      createSale db d (some sid) sale_date saleId = (.ok sale, db2) ∧
      sale.total_price = (d.quantity : Rat) * d.unit_price ∧
      sale.warranty_start
        = (calculateWarrantyDates sale_date d.warranty_period_months).warrantyStart ∧
      sale.warranty_end
        = (calculateWarrantyDates sale_date d.warranty_period_months).warrantyEnd ∧
      db2.sales = db.sales ++ [sale] ∧
      findActiveProduct db2 d.product_id
        = some { prod with stock := prod.stock - d.quantity } ∧
      db2.customers = db.customers ∧
      db2.images = db.images := by
  have hfind : db.products.find? (fun p => p.id == d.product_id && p.is_active)
      = some prod := hprod
  have hps := List.find?_some hfind
  simp only [Bool.and_eq_true, beq_iff_eq] at hps
  obtain ⟨c, hc⟩ := Option.isSome_iff_exists.mp hcust
  have hcfind : findCustomer db d.customer_id = some c := hc
  have hmap := find?_map_of_pred_inv db.products
    (fun p => if p.id == d.product_id then { p with stock := p.stock - d.quantity } else p)
    (fun p => p.id == d.product_id && p.is_active)
    (fun x => by by_cases hx : (x.id == d.product_id) = true <;> simp [hx]) hfind
  unfold createSale
  rw [hprod, hcfind]
  dsimp only
  rw [if_neg (not_lt.mpr hstock)]
  refine ⟨_, _, rfl, rfl, rfl, rfl, rfl, ?_, rfl, rfl⟩
  unfold findActiveProduct
  dsimp only
  rw [hmap]
  simp [hps.1]

/-- Product fixture of the successful sale scenario: stock 10, price 100. -/
def productOk : Product := ⟨1, "Laptop", 10, 100, true⟩

/-- Customer fixture. -/
def customerAna : Customer := ⟨2, "Ana", "Diaz"⟩

/-- Database fixture of the successful sale scenario. -/
def dbOk : DB := ⟨[productOk], [customerAna], [], []⟩

/-- Request fixture of the successful sale scenario: quantity 3 at unit
price 100 with a 12 month warranty. -/
def reqOk : CreateSaleData := ⟨1, 2, 3, 100, 12, none⟩

/-- Witness for C1: the scenario of the specification; stock 10, quantity
3, unit price 100.00 on 2024-01-15 gives total 300.00, warranty 2024-01-15
to 2025-01-15, and stock 7 afterwards. -/
theorem createSale_success_witness :
    (findActiveProduct dbOk 1 = some productOk ∧ (3 : Int) ≤ 10 ∧
     (findCustomer dbOk 2).isSome = true ∧ (0 : Int) < 3 ∧ (0 : Rat) < 100 ∧
     (1 : Nat) ≤ 12 ∧ (12 : Nat) ≤ 120) ∧
    (∃ sale db2,
      createSale dbOk reqOk (some 9) ⟨2024, 1, 15⟩ 50 = (.ok sale, db2) ∧
      sale.total_price = 300 ∧
      sale.warranty_start = ⟨2024, 1, 15⟩ ∧
      sale.warranty_end = ⟨2025, 1, 15⟩ ∧
      db2.sales = dbOk.sales ++ [sale] ∧
      findActiveProduct db2 1
        = some { productOk with stock := productOk.stock - reqOk.quantity } ∧
      productOk.stock - reqOk.quantity = 7) := by
  refine ⟨⟨by decide, by decide, by decide, by decide, by decide, by decide, by decide⟩, ?_⟩
  obtain ⟨sale, db2, h1, h2, h3, h4, h5, h6, h7, h8⟩ :=
    createSale_success dbOk reqOk 9 ⟨2024, 1, 15⟩ 50 productOk
      (by decide) (by decide) (by decide) (by decide) (by decide) (by decide) (by decide)
  refine ⟨sale, db2, h1, ?_, ?_, ?_, h5, h6, by decide⟩
  · rw [h2]; norm_num [reqOk]
  · rw [h3]; rfl
  · rw [h4]; decide

/-- C2 (amended). When the stock read inside the transaction is below
the requested quantity, createSale fails with a ValidationError whose
message reports the available stock and the requested quantity (in the
Spanish wording of the source, Disponible / Solicitado, not the English
wording quoted by the claim), the transaction is rolled back, and the
database, in particular the stock and the sales table, is returned
unchanged. -/
theorem createSale_insufficient_stock (db : DB) (d : CreateSaleData) (sid : Nat)
    (sale_date : Date) (saleId : Nat) (prod : Product)
    (hprod : findActiveProduct db d.product_id = some prod)
    (hstock : prod.stock < d.quantity) :
    createSale db d (some sid) sale_date saleId =
      (.error (.validation ("Stock insuficiente. Disponible: " ++ toString prod.stock
        ++ ", Solicitado: " ++ toString d.quantity)), db) := by
  unfold createSale
  rw [hprod]
  dsimp only
  rw [if_pos hstock]

/-- Product fixture of the insufficient stock scenario: stock 2. -/
def productLow : Product := ⟨1, "Mouse", 2, 100, true⟩

/-- Database fixture of the insufficient stock scenario. -/
def dbLow : DB := ⟨[productLow], [customerAna], [], []⟩

/-- Request fixture asking for quantity 5. -/
def reqLow : CreateSaleData := ⟨1, 2, 5, 100, 12, none⟩

/-- Witness for C2: stock 2 and requested 5; the sale is rejected with
the Spanish stock message and the database is unchanged. -/
theorem createSale_insufficient_stock_witness :
    (findActiveProduct dbLow 1 = some productLow ∧ productLow.stock < (5 : Int)) ∧
    createSale dbLow reqLow (some 9) ⟨2024, 1, 15⟩ 50 =
      (.error (.validation "Stock insuficiente. Disponible: 2, Solicitado: 5"), dbLow) := by
  refine ⟨⟨by decide, by decide⟩, ?_⟩
  have h := createSale_insufficient_stock dbLow reqLow 9 ⟨2024, 1, 15⟩ 50 productLow
    (by decide) (by decide)
  have heq : ("Stock insuficiente. Disponible: " ++ toString productLow.stock
      ++ ", Solicitado: " ++ toString reqLow.quantity)
      = "Stock insuficiente. Disponible: 2, Solicitado: 5" := by decide
  rw [heq] at h
  exact h

/-- Counterexample for C2 as stated: at stock 2 and requested quantity 5
the raised ValidationError message is the Spanish sentence of the source
and does not contain the English fragment quoted by the claim. -/
theorem createSale_stock_message_counterexample :
    (createSale dbLow reqLow (some 9) ⟨2024, 1, 15⟩ 50).1
      = .error (.validation "Stock insuficiente. Disponible: 2, Solicitado: 5") ∧
    ¬ (("available: 2, requested: 5".toList)
        <:+: ("Stock insuficiente. Disponible: 2, Solicitado: 5".toList)) := by
  exact ⟨rfl, by decide⟩

/-! ## Customer deletion guard -/

/-- SELECT COUNT(*) FROM sales WHERE customer_id = $1. -/
def customerSalesCount (db : DB) (cid : Nat) : Nat :=
  (db.sales.filter (fun s => s.customer_id == cid)).length

/-- Embedding of deleteCustomer
(src/controllers/customerController.ts): NotFound for a missing
customer, ConflictError naming the sale count when the customer owns at
least one sale, and otherwise a hard DELETE of the customer row. -/
def deleteCustomer (db : DB) (cid : Nat) : Except AppError String × DB :=
  match findCustomer db cid with
  | none => (.error (.notFound "Cliente no encontrado"), db)
  | some c =>
    let salesCount := customerSalesCount db cid
    if 0 < salesCount then
      (.error (.conflict ("No se puede eliminar el cliente. Tiene "
        ++ toString salesCount ++ " venta(s) asociada(s)")), db)
    else
      (.ok ("Cliente " ++ c.first_name ++ " " ++ c.last_name ++ " eliminado exitosamente"),
       { db with customers := db.customers.filter (fun x => !(x.id == cid)) })

/-- C7. deleteCustomer removes a customer exactly when the customer owns
zero sales: a missing id yields NotFound with no change; a customer with
n at least 1 sales is rejected with a ConflictError whose message names
n, leaving the database unchanged; a customer with 0 sales is deleted
(and only customer rows with that id are removed), with the sales table
untouched. -/
theorem deleteCustomer_guard (db : DB) (cid : Nat) :
    (findCustomer db cid = none →
      deleteCustomer db cid = (.error (.notFound "Cliente no encontrado"), db)) ∧
    (∀ c, findCustomer db cid = some c → 1 ≤ customerSalesCount db cid →
      deleteCustomer db cid =
        (.error (.conflict ("No se puede eliminar el cliente. Tiene "
          ++ toString (customerSalesCount db cid) ++ " venta(s) asociada(s)")), db)) ∧
    (∀ c, findCustomer db cid = some c → customerSalesCount db cid = 0 →
      (deleteCustomer db cid).1
        = .ok ("Cliente " ++ c.first_name ++ " " ++ c.last_name ++ " eliminado exitosamente") ∧
      (deleteCustomer db cid).2.customers = db.customers.filter (fun x => !(x.id == cid)) ∧
      findCustomer (deleteCustomer db cid).2 cid = none ∧
      (deleteCustomer db cid).2.sales = db.sales) := by
  refine ⟨?_, ?_, ?_⟩
  · intro h
    unfold deleteCustomer
    rw [h]
  · intro c hc hn
    unfold deleteCustomer
    rw [hc]
    dsimp only
    rw [if_pos (by omega)]
  · intro c hc hn
    unfold deleteCustomer
    rw [hc]
    dsimp only
    rw [if_neg (by omega)]
    refine ⟨rfl, rfl, ?_, rfl⟩
    unfold findCustomer
    dsimp only
    rw [List.find?_eq_none]
    intro x hx
    have := (List.mem_filter.mp hx).2
    simp only [Bool.not_eq_eq_eq_not, Bool.not_true] at this
    simp [this]

/-- Customer fixture owning two sales. -/
def customerLuis : Customer := ⟨3, "Luis", "Paz"⟩

/-- Sale row fixture builder: a minimal sales row owned by the given
customer. -/
def mkSaleFor (sid cid : Nat) : SaleRow :=
  { id := sid, product_id := 1, customer_id := cid, seller_id := 9
  , quantity := 1, unit_price := 100, total_price := 100
  , sale_date := ⟨2024, 1, 15⟩, warranty_period_months := 12
  , warranty_start := ⟨2024, 1, 15⟩, warranty_end := ⟨2025, 1, 15⟩
  , serial_number := none }

/-- Database fixture with one guarded and one deletable customer. -/
def dbCustomers : DB :=
  ⟨[], [customerLuis, customerAna], [mkSaleFor 11 3, mkSaleFor 12 3], []⟩

/-- Witness for C7: customer 3 owns 2 sales and is rejected with the
message naming 2; customer 2 owns none and is deleted. -/
theorem deleteCustomer_guard_witness :
    (findCustomer dbCustomers 3 = some customerLuis ∧
     1 ≤ customerSalesCount dbCustomers 3 ∧
     findCustomer dbCustomers 2 = some customerAna ∧
     customerSalesCount dbCustomers 2 = 0) ∧
    deleteCustomer dbCustomers 3 =
      (.error (.conflict ("No se puede eliminar el cliente. Tiene "
        ++ toString (customerSalesCount dbCustomers 3) ++ " venta(s) asociada(s)")), dbCustomers) ∧
    toString (customerSalesCount dbCustomers 3) = "2" ∧
    (deleteCustomer dbCustomers 2).1
      = .ok ("Cliente " ++ customerAna.first_name ++ " " ++ customerAna.last_name
          ++ " eliminado exitosamente") ∧
    findCustomer (deleteCustomer dbCustomers 2).2 2 = none :=
  ⟨⟨by decide, by decide, by decide, by decide⟩,
   ((deleteCustomer_guard dbCustomers 3).2.1 customerLuis (by decide) (by decide)),
   by decide,
   ((deleteCustomer_guard dbCustomers 2).2.2 customerAna (by decide) (by decide)).1,
   ((deleteCustomer_guard dbCustomers 2).2.2 customerAna (by decide) (by decide)).2.2.1⟩

/-! ## Image attachment

uploadSaleImages (src/controllers/saleController.ts) processes the files
with an async map awaited by Promise.all: each per-file task validates
its declared type, uploads, and inserts its own sale_images row with an
independent single statement (the pooled query helper, no transaction).
A rejected task makes Promise.all reject, but the other tasks keep
running and their inserts persist; the embedding therefore commits one
row for every file whose declared type is valid, and reports the error of
the first invalid file when one exists. The external upload collaborator
is a parameter mapping filename and type to the stored URL, and row ids
are the base id plus the file index. -/

/-- The three admissible image types of the sale_images CHECK constraint. -/
def validImageTypes : List String := ["sealed", "full_product", "serial_number"]

/-- Rows inserted by the per-file tasks: one sale_images row per file
whose declared type is valid, in request order. -/
def processImages (saleId : Nat) (uploadUrl : String → String → String) :
    List (String × String) → Nat → List SaleImage
  | [], _ => []
  | (f, t) :: rest, nextId =>
    if t ∈ validImageTypes then
      { id := nextId, sale_id := saleId, image_type := t, image_url := uploadUrl f t }
        :: processImages saleId uploadUrl rest (nextId + 1)
    else processImages saleId uploadUrl rest (nextId + 1)

/-- First file whose declared type is invalid, when one exists; its task
is the first to reject inside Promise.all. -/
def firstInvalidType (pairs : List (String × String)) : Option String :=
  (pairs.find? (fun p => !(decide (p.2 ∈ validImageTypes)))).map (fun p => p.2)

/-- Embedding of uploadSaleImages (src/controllers/saleController.ts). -/
def uploadSaleImages (db : DB) (saleId : Nat) (uploadUrl : String → String → String)
    (files image_types : List String) (base : Nat) : Except AppError (List SaleImage) × DB :=
  if files.length = 0 then
    (.error (.validation "No se proporcionaron imágenes"), db)
  else if files.length ≠ image_types.length then
    (.error (.validation "Número de imágenes debe coincidir con tipos de imagen"), db)
  else
    match findSale db saleId with
    | none => (.error (.notFound "Venta no encontrada"), db)
    | some _ =>
      let pairs := files.zip image_types
      let rows := processImages saleId uploadUrl pairs base
      let db2 : DB := { db with images := db.images ++ rows }
      match firstInvalidType pairs with
      | some t => (.error (.validation ("Tipo de imagen inválido: " ++ t)), db2)
      | none => (.ok rows, db2)

/-- Number of sale_images rows of a given type attached to a sale. -/
def countImages (db : DB) (saleId : Nat) (t : String) : Nat :=
  (db.images.filter (fun i => i.sale_id == saleId && i.image_type == t)).length

lemma processImages_all_valid (saleId : Nat) (uploadUrl : String → String → String) :
    ∀ (ps : List (String × String)) (base : Nat),
      (∀ p ∈ ps, p.2 ∈ validImageTypes) →
      (processImages saleId uploadUrl ps base).map (fun r => (r.sale_id, r.image_type))
        = ps.map (fun p => (saleId, p.2)) := by
  intro ps
  induction ps with
  | nil => intro base h; rfl
  | cons p rest ih =>
    intro base h
    obtain ⟨f, t⟩ := p
    have ht : t ∈ validImageTypes := h (f, t) (List.mem_cons_self _ _)
    unfold processImages
    rw [if_pos ht, List.map_cons]
    simp only [List.map_cons] at *
    exact congrArg _ (ih (base + 1) (fun q hq => h q (List.mem_cons_of_mem _ hq)))

lemma firstInvalidType_eq_none (ps : List (String × String))
    (h : ∀ p ∈ ps, p.2 ∈ validImageTypes) : firstInvalidType ps = none := by
  unfold firstInvalidType
  rw [List.find?_eq_none.mpr]
  · rfl
  · intro p hp
    simp [h p hp]

lemma zip_map_snd {α β : Type} : ∀ (l1 : List α) (l2 : List β),
    l1.length = l2.length → (l1.zip l2).map Prod.snd = l2 := by
  intro l1
  induction l1 with
  | nil => intro l2 h; cases l2 <;> simp at *
  | cons x xs ih =>
    intro l2 h
    cases l2 with
    | nil => simp at h
    | cons y ys =>
      simp only [List.zip_cons_cons, List.map_cons, List.length_cons] at h ⊢
      rw [ih ys (by omega)]

/-- C5 (amended). uploadSaleImages performs no per-type uniqueness check
and the sale_images table has no unique constraint on the pair of sale id
and image type: whenever the sale exists and every declared type is one
of the three admissible values, the upload succeeds and appends one new
row per file, regardless of the images already attached to the sale; in
particular a second upload of an already-present type is accepted and a
duplicate row accumulates, and uploading the three distinct types
succeeds. No Conflict error exists on this path. -/
theorem uploadSaleImages_no_uniqueness (db : DB) (saleId : Nat)
    (uploadUrl : String → String → String) (files image_types : List String) (base : Nat)
    (hsale : (findSale db saleId).isSome = true)
    (hne : files.length ≠ 0)
    (hlen : files.length = image_types.length)
    (hvalid : ∀ t ∈ image_types, t ∈ validImageTypes) :
    ∃ rows,
      uploadSaleImages db saleId uploadUrl files image_types base
        = (.ok rows, { db with images := db.images ++ rows }) ∧
      rows.map (fun r => (r.sale_id, r.image_type))
        = image_types.map (fun t => (saleId, t)) := by
  obtain ⟨s, hs⟩ := Option.isSome_iff_exists.mp hsale
  have hpairs : ∀ p ∈ files.zip image_types, p.2 ∈ validImageTypes := by
    intro p hp
    exact hvalid p.2 (List.of_mem_zip hp).2
  unfold uploadSaleImages
  rw [hs, if_neg hne, if_neg (by omega)]
  dsimp only
  rw [firstInvalidType_eq_none _ hpairs]
  refine ⟨_, rfl, ?_⟩
  rw [processImages_all_valid _ _ _ _ hpairs]
  rw [show (fun p : String × String => (saleId, p.2))
        = (fun t => (saleId, t)) ∘ Prod.snd from rfl,
    ← List.map_map, zip_map_snd files image_types hlen]

/-- Database fixture for the image endpoints: sale 7 already owns one
sealed image. -/
def dbImages : DB := ⟨[], [], [mkSaleFor 7 2], [⟨50, 7, "sealed", "old-url"⟩]⟩

/-- Witness for C5: on a sale that already has a sealed image, uploading
the three distinct types succeeds, and the sealed count rises to two. -/
theorem uploadSaleImages_no_uniqueness_witness :
    ((findSale dbImages 7).isSome = true ∧
     (["a.jpg", "b.jpg", "c.jpg"] : List String).length ≠ 0 ∧
     (["a.jpg", "b.jpg", "c.jpg"] : List String).length
       = (["sealed", "full_product", "serial_number"] : List String).length ∧
     ∀ t ∈ (["sealed", "full_product", "serial_number"] : List String),
       t ∈ validImageTypes) ∧
    (∃ rows,
      uploadSaleImages dbImages 7 (fun f _ => f)
          ["a.jpg", "b.jpg", "c.jpg"] ["sealed", "full_product", "serial_number"] 60
        = (.ok rows, { dbImages with images := dbImages.images ++ rows }) ∧
      rows.map (fun r => (r.sale_id, r.image_type))
        = (["sealed", "full_product", "serial_number"] : List String).map
            (fun t => (7, t))) ∧
    countImages (uploadSaleImages dbImages 7 (fun f _ => f)
        ["a.jpg", "b.jpg", "c.jpg"] ["sealed", "full_product", "serial_number"] 60).2
      7 "sealed" = 2 :=
  ⟨⟨by decide, by decide, by decide, by decide⟩,
   uploadSaleImages_no_uniqueness dbImages 7 (fun f _ => f)
     ["a.jpg", "b.jpg", "c.jpg"] ["sealed", "full_product", "serial_number"] 60
     (by decide) (by decide) (by decide) (by decide),
   by decide⟩

/-- Counterexample for C5 as stated: sale 7 already has a sealed image,
yet a request uploading another sealed image is not rejected with a
Conflict error; it succeeds and a second sealed row for the same sale is
persisted. -/
theorem uploadSaleImages_duplicate_counterexample :
    countImages dbImages 7 "sealed" = 1 ∧
    (uploadSaleImages dbImages 7 (fun f _ => f) ["b.jpg"] ["sealed"] 60).1
      = .ok [⟨60, 7, "sealed", "b.jpg"⟩] ∧
    countImages (uploadSaleImages dbImages 7 (fun f _ => f) ["b.jpg"] ["sealed"] 60).2
      7 "sealed" = 2 := by
  exact ⟨rfl, rfl, rfl⟩

/-- Database fixture for the atomicity claim: sale 7 with no images. -/
def dbAtomic : DB := ⟨[], [], [mkSaleFor 7 2], []⟩

/-- C9. uploadSaleImages is not atomic on error: the per-file inserts
run as independent statements under Promise.all, so a request carrying
one file of valid type sealed together with one file of invalid declared
type fails with a ValidationError naming the invalid type, while the row
already inserted for the valid file remains persisted. -/
theorem uploadSaleImages_not_atomic :
    (uploadSaleImages dbAtomic 7 (fun f t => t ++ "/" ++ f)
        ["a.jpg", "b.jpg"] ["sealed", "bogus"] 100).1
      = .error (.validation "Tipo de imagen inválido: bogus") ∧
    (uploadSaleImages dbAtomic 7 (fun f t => t ++ "/" ++ f)
        ["a.jpg", "b.jpg"] ["sealed", "bogus"] 100).2.images
      = [⟨100, 7, "sealed", "sealed/a.jpg"⟩] := by
  exact ⟨rfl, rfl⟩

/-! ## Serial extraction -/

/-- JavaScript falsiness of a nullable string: null and the empty string
are falsy (the if (!saleCheck.rows[0].serial_number) test of the source). -/
def jsFalsyStr (s : Option String) : Bool :=
  match s with
  | none => true
  | some v => v == ""

/-- Embedding of extractSerial (src/controllers/saleController.ts): the
sale must exist; a sale_images row of type serial_number is always
inserted; the serial_number field of the sale is set to the extracted
value only when it is currently falsy. The extracted serial and the
stored URL come from the simulated OCR and upload collaborators and are
parameters. -/
def extractSerial (db : DB) (saleId : Nat) (file : Option String)
    (extracted url : String) (imageId : Nat) : Except AppError String × DB :=
  match file with
  | none => (.error (.validation "Imagen requerida"), db)
  | some _ =>
    match findSale db saleId with
    | none => (.error (.notFound "Venta no encontrada"), db)
    | some sale =>
      let db1 : DB := { db with images :=
        db.images ++ [⟨imageId, saleId, "serial_number", url⟩] }
      let db2 : DB :=
        if jsFalsyStr sale.serial_number then
          { db1 with sales := db1.sales.map (fun s =>
              if s.id == saleId then { s with serial_number := some extracted } else s) }
        else db1
      (.ok extracted, db2)

lemma extractSerial_sets (db : DB) (saleId : Nat) (f e u : String) (i : Nat)
    (sale : SaleRow) (hfind : findSale db saleId = some sale)
    (hnone : sale.serial_number = none) :
    (extractSerial db saleId (some f) e u i).1 = .ok e ∧
    findSale (extractSerial db saleId (some f) e u i).2 saleId
      = some { sale with serial_number := some e } := by
  have hfind2 : db.sales.find? (fun s => s.id == saleId) = some sale := hfind
  have hid := List.find?_some hfind2
  have hmap := find?_map_of_pred_inv db.sales
    (fun s => if s.id == saleId then { s with serial_number := some e } else s)
    (fun s => s.id == saleId)
    (fun x => by by_cases hx : (x.id == saleId) = true <;> simp [hx]) hfind2
  unfold extractSerial
  rw [hfind]
  dsimp only
  rw [show jsFalsyStr sale.serial_number = true from by rw [hnone]; rfl]
  rw [if_pos rfl]
  refine ⟨rfl, ?_⟩
  unfold findSale
  dsimp only
  rw [hmap]
  simp [hid]

lemma extractSerial_keeps (db : DB) (saleId : Nat) (f e u : String) (i : Nat)
    (sale : SaleRow) (hfind : findSale db saleId = some sale)
    (v : String) (hv : sale.serial_number = some v) (hne : v ≠ "") :
    ((extractSerial db saleId (some f) e u i).2).sales = db.sales := by
  unfold extractSerial
  rw [hfind]
  dsimp only
  rw [show jsFalsyStr sale.serial_number = false from by
    rw [hv]; simpa [jsFalsyStr] using hne]
  rw [if_neg (by simp)]

/-- C6. Serial extraction is first-write-wins on the serial_number field
of the sale: when the field is null, the call succeeds and sets it to the
extracted value; when the field holds a nonempty value, the call leaves
every sales row unchanged; consequently two successive extraction calls
on a sale starting with a null field leave the value written by the
first call in place, and the second call never overwrites it. -/
theorem extractSerial_first_write_wins (db : DB) (saleId : Nat)
    (f1 f2 e1 e2 u1 u2 : String) (i1 i2 : Nat) (sale : SaleRow)
    (hfind : findSale db saleId = some sale) :
    (sale.serial_number = none →
      (extractSerial db saleId (some f1) e1 u1 i1).1 = .ok e1 ∧
      findSale (extractSerial db saleId (some f1) e1 u1 i1).2 saleId
        = some { sale with serial_number := some e1 }) ∧
    (∀ v, sale.serial_number = some v → v ≠ "" →
      ((extractSerial db saleId (some f2) e2 u2 i2).2).sales = db.sales) ∧
    (sale.serial_number = none → e1 ≠ "" →
      findSale (extractSerial (extractSerial db saleId (some f1) e1 u1 i1).2
          saleId (some f2) e2 u2 i2).2 saleId
        = some { sale with serial_number := some e1 }) := by
  refine ⟨fun hnone => extractSerial_sets db saleId f1 e1 u1 i1 sale hfind hnone,
    fun v hv hne => extractSerial_keeps db saleId f2 e2 u2 i2 sale hfind v hv hne,
    fun hnone hne1 => ?_⟩
  have h1 := extractSerial_sets db saleId f1 e1 u1 i1 sale hfind hnone
  have h2 := extractSerial_keeps (extractSerial db saleId (some f1) e1 u1 i1).2
    saleId f2 e2 u2 i2 { sale with serial_number := some e1 } h1.2 e1 rfl hne1
  unfold findSale at *
  rw [h2]
  exact h1.2

/-- Witness for C6: sale 7 starts with a null serial; the first call
writes SN123, and a second call with a different extracted value leaves
SN123 in place. -/
theorem extractSerial_first_write_wins_witness :
    (findSale dbAtomic 7 = some (mkSaleFor 7 2) ∧
     (mkSaleFor 7 2).serial_number = none ∧ ("SN123" : String) ≠ "") ∧
    (((mkSaleFor 7 2).serial_number = none →
      (extractSerial dbAtomic 7 (some "a.jpg") "SN123" "u1" 100).1 = .ok "SN123" ∧
      findSale (extractSerial dbAtomic 7 (some "a.jpg") "SN123" "u1" 100).2 7
        = some { mkSaleFor 7 2 with serial_number := some "SN123" }) ∧
     (∀ v, (mkSaleFor 7 2).serial_number = some v → v ≠ "" →
      ((extractSerial dbAtomic 7 (some "b.jpg") "SN999" "u2" 101).2).sales
        = dbAtomic.sales) ∧
     ((mkSaleFor 7 2).serial_number = none → ("SN123" : String) ≠ "" →
      findSale (extractSerial (extractSerial dbAtomic 7 (some "a.jpg") "SN123" "u1" 100).2
          7 (some "b.jpg") "SN999" "u2" 101).2 7
        = some { mkSaleFor 7 2 with serial_number := some "SN123" })) :=
  ⟨⟨by decide, by decide, by decide⟩,
   extractSerial_first_write_wins dbAtomic 7 "a.jpg" "b.jpg" "SN123" "SN999" "u1" "u2"
     100 101 (mkSaleFor 7 2) (by decide)⟩
